import Mathlib

/-!
Shallow embedding of the transcript-feedback dashboard (src/src/App.tsx).

The program is a single React component holding UI state and issuing three
read queries against a remote table store. We model:
  * the record types (User, Feedback, StoredItem) as structures, with JS
    null/undefined as Option.none and JS numbers as Int (only integral
    values matter to the claims);
  * each query the component builds as a QuerySpec value (table, projected
    columns, equality filter, order, limit);
  * a query response as QueryResult (data or error, as the client returns);
  * the component state as AppState, and each async handler as a function
    from state and query responses to state — fetchData additionally
    reports the list of queries it issued;
  * the JSX fragments the claims mention as pure render functions into a
    small Node type (plain text vs an em-element placeholder).
-/

structure User where
  user_id : String
  email : String
  created_at : Option String := none
deriving Repr, DecidableEq

structure Feedback where
  id : String
  created_at : String
  user_id : String
  transcript : Option String := none
  intent : Option String := none
  item : Option String := none
  location : Option String := none
  confidence_score : Option Int := none
  action_type : Option String := none
  was_correct : Option Bool := none
  corrected_item : Option String := none
  corrected_location : Option String := none
  corrected_command : Option String := none
  note : Option String := none
  audio_url : Option String := none
deriving Repr, DecidableEq

structure StoredItem where
  id : String
  item_name : String
  location : String
  notes : Option String
  created_at : String
deriving Repr, DecidableEq

/-- A supabase query as the component builds it: table, selected columns,
optional equality filter (column, value), order column and direction,
optional row limit. -/
structure QuerySpec where
  table : String
  select : String
  eqFilter : Option (String × String)
  orderBy : String
  ascending : Bool
  limit : Option Nat
deriving Repr, DecidableEq

/-- The response shape the query client returns: a nullable data array and a
nullable error (modelled by its message). -/
structure QueryResult (α : Type) where
  data : Option (List α)
  error : Option String
deriving Repr

/-- The recent-users query (fetchLatestUsers): user_id, email, created_at
from user_profiles, created_at descending, limit 10. -/
def latestUsersQuery : QuerySpec :=
  { table := "user_profiles", select := "user_id, email, created_at",
    eqFilter := none, orderBy := "created_at", ascending := false,
    limit := some 10 }

/-- The all-users query (fetchUsers): user_id, email from user_profiles,
email ascending, no limit. -/
def allUsersQuery : QuerySpec :=
  { table := "user_profiles", select := "user_id, email",
    eqFilter := none, orderBy := "email", ascending := true, limit := none }

/-- The feedback detail query: all columns of transcript_feedback filtered by
user_id, created_at descending, no limit. -/
def feedbackQuery (uid : String) : QuerySpec :=
  { table := "transcript_feedback", select := "*",
    eqFilter := some ("user_id", uid), orderBy := "created_at",
    ascending := false, limit := none }

/-- The items detail query: all columns of stored_items filtered by user_id,
created_at descending, no limit. -/
def itemsQuery (uid : String) : QuerySpec :=
  { table := "stored_items", select := "*",
    eqFilter := some ("user_id", uid), orderBy := "created_at",
    ascending := false, limit := none }

/-- The component state: the seven useState cells, plus the console log of
error messages (console.error calls, modelled by appended messages). -/
structure AppState where
  users : List User
  selectedEmail : Option String
  feedback : List Feedback
  items : List StoredItem
  loading : Bool
  error : Option String
  latestUsers : List User
  log : List String
deriving Repr, DecidableEq

/-- The initial state of the seven useState cells. -/
def initState : AppState :=
  { users := [], selectedEmail := none, feedback := [], items := [],
    loading := false, error := none, latestUsers := [], log := [] }

/-- JS truthiness of a nullable string: null/undefined and the empty string
are falsy, every other string is truthy. -/
def strTruthy : Option String → Bool
  | none => false
  | some s => s != ""

/-- JS truthiness of a nullable boolean: null/undefined and false are falsy. -/
def boolTruthy : Option Bool → Bool
  | none => false
  | some b => b

/-- fetchLatestUsers response handling: on error, only log it; otherwise
replace latestUsers with the data (null coerced to the empty list). -/
def fetchLatestUsers (s : AppState) (res : QueryResult User) : AppState :=
  match res.error with
  | some e => { s with log := s.log ++ ["Failed to fetch latest users: " ++ e] }
  | none => { s with latestUsers := res.data.getD [] }

/-- fetchUsers response handling: on error, set the generic user-visible
message and log the error; otherwise replace users with the data. -/
def fetchUsers (s : AppState) (res : QueryResult User) : AppState :=
  match res.error with
  | some e => { s with error := some "Failed to load users", log := s.log ++ [e] }
  | none => { s with users := res.data.getD [] }

/-- The select onChange handler: store the chosen option value (a string;
the placeholder option carries the empty string). -/
def selectUser (s : AppState) (email : String) : AppState :=
  { s with selectedEmail := some email }

/-- Result of one run of fetchData: the state it leaves behind and the
queries it issued on the way. -/
structure FetchOutcome where
  state : AppState
  issued : List QuerySpec
deriving Repr, DecidableEq

/-- The synchronous prefix of fetchData once past the guard:
setLoading(true); setError(null). -/
def fetchDataStart (s : AppState) : AppState :=
  { s with loading := true, error := none }

/-- The rest of fetchData: resolve the user from the loaded list by exact
email equality; if none matches, the thrown local error ("User not found")
lands in the catch, which sets the generic message and logs it, and no query
is issued. Otherwise both detail queries are issued with the resolved
user_id; if either response carries an error the first truthy one is thrown
to the same catch and neither list is replaced; if both succeed, feedback and
items are replaced (null data coerced to the empty list). The finally block
clears the loading flag on every path. -/
def fetchDataResolve (s : AppState) (email : String)
    (feedbackRes : QueryResult Feedback) (itemsRes : QueryResult StoredItem) :
    FetchOutcome :=
  match s.users.find? (fun u => u.email == email) with
  | none =>
      { state := { s with
                     error := some "Failed to load data"
                     log := s.log ++ ["User not found"]
                     loading := false },
        issued := [] }
  | some user =>
      let issued := [feedbackQuery user.user_id, itemsQuery user.user_id]
      match feedbackRes.error, itemsRes.error with
      | some e, _ =>
          { state := { s with
                         error := some "Failed to load data"
                         log := s.log ++ [e]
                         loading := false },
            issued := issued }
      | none, some e =>
          { state := { s with
                         error := some "Failed to load data"
                         log := s.log ++ [e]
                         loading := false },
            issued := issued }
      | none, none =>
          { state := { s with
                         feedback := feedbackRes.data.getD []
                         items := itemsRes.data.getD []
                         loading := false },
            issued := issued }

/-- One run of fetchData: the falsy-selection guard returns at once touching
nothing; otherwise the start (loading true, error cleared) then the
resolution step. -/
def fetchData (s : AppState) (feedbackRes : QueryResult Feedback)
    (itemsRes : QueryResult StoredItem) : FetchOutcome :=
  if strTruthy s.selectedEmail then
    fetchDataResolve (fetchDataStart s) (s.selectedEmail.getD "")
      feedbackRes itemsRes
  else
    { state := s, issued := [] }

/-- A rendered fragment: plain text or an em-element placeholder. -/
inductive Node where
  | text (s : String)
  | em (s : String)
deriving Repr, DecidableEq

/-- The JSX pattern (value || em-fallback) on a nullable string field:
em-placeholder whenever the field is falsy (null, undefined or empty). -/
def renderOrEm (v : Option String) (fallback : String) : Node :=
  if strTruthy v then Node.text (v.getD "") else Node.em fallback

/-- Rendering of an item row's notes cell. -/
def renderNotes (notes : Option String) : Node := renderOrEm notes "–"

/-- Rendering of a feedback row's transcript field. -/
def renderTranscript (t : Option String) : Node := renderOrEm t "None"

/-- Rendering of a feedback row's location field. -/
def renderFeedbackLocation (l : Option String) : Node :=
  renderOrEm l "Not provided"

/-- Rendering of the confidence field: nullish coalescing, so only
null/undefined falls to the placeholder and the number 0 is displayed. -/
def renderConfidence (c : Option Int) : Node :=
  match c with
  | some n => Node.text (toString n)
  | none => Node.em "n/a"

/-- Rendering of the was_correct field: a plain truthiness conditional, so
null/undefined and false share the negative branch. -/
def renderWasCorrect (wc : Option Bool) : String :=
  if boolTruthy wc then "✅ Yes" else "❌ No"

/-- One option element of the email selector. -/
structure SelectOption where
  value : String
  label : String
deriving Repr, DecidableEq

/-- The rendered option list of the email selector: the placeholder option
with the empty value, then one option per loaded user. -/
def emailOptions (users : List User) : List SelectOption :=
  { value := "", label := "-- Select a user --" } ::
    users.map (fun u => { value := u.email, label := u.email })

/-! ## Sample data for concrete witness states -/

def sampleUser : User :=
  { user_id := "u1", email := "alice@example.com", created_at := none }

def sampleFeedback : Feedback :=
  { id := "f1", created_at := "2024-01-01", user_id := "u1" }

def sampleItem : StoredItem :=
  { id := "i1", item_name := "keys", location := "drawer", notes := none,
    created_at := "2024-01-01" }

/-- A state with one loaded user selected and nonempty prior detail lists. -/
def baseState : AppState :=
  { users := [sampleUser], selectedEmail := some "alice@example.com",
    feedback := [sampleFeedback], items := [sampleItem], loading := false,
    error := none, latestUsers := [], log := [] }

/-- baseState with the selection cleared. -/
def clearedState : AppState :=
  { baseState with selectedEmail := none }

/-- baseState with an email selected that no loaded user carries. -/
def missingState : AppState :=
  { baseState with selectedEmail := some "bob@example.com" }

/-! ## Helper lemmas -/

/-- The resolution step clears the loading flag on every path. -/
theorem fetchDataResolve_loading (s : AppState) (email : String)
    (fRes : QueryResult Feedback) (iRes : QueryResult StoredItem) :
    (fetchDataResolve s email fRes iRes).state.loading = false := by
  unfold fetchDataResolve
  cases s.users.find? (fun u => u.email == email) with
  | none => rfl
  | some user =>
      cases hf : fRes.error with
      | some e => rfl
      | none =>
          cases hi : iRes.error with
          | some e => rfl
          | none => rfl

/-- A truthy selection holds some nonempty email. -/
theorem strTruthy_some (e : String) (hne : e ≠ "") :
    strTruthy (some e) = true := by
  simp [strTruthy, hne]

/-! ## Claim theorems -/

/-- C5: was_correct rendering uses a plain truthiness conditional: null (and
undefined and false) all render the negative branch, only true renders the
positive one, and no third rendering exists for the unknown state. -/
theorem C5_was_correct_falsy_branch (wc : Option Bool) :
    renderWasCorrect none = "❌ No" ∧
    renderWasCorrect (some false) = "❌ No" ∧
    renderWasCorrect (some true) = "✅ Yes" ∧
    (renderWasCorrect wc = "✅ Yes" ↔ wc = some true) ∧
    (renderWasCorrect wc = "✅ Yes" ∨ renderWasCorrect wc = "❌ No") := by
  cases wc with
  | none => refine ⟨rfl, rfl, rfl, ?_, Or.inr rfl⟩; decide
  | some b => cases b <;> refine ⟨rfl, rfl, rfl, ?_, ?_⟩ <;> decide

/-- C6: the notes cell renders the en-dash placeholder both for null and for
the empty string, and any nonempty notes string verbatim. -/
theorem C6_notes_placeholder (s : String) (hs : s ≠ "") :
    renderNotes none = Node.em "–" ∧
    renderNotes (some "") = Node.em "–" ∧
    renderNotes (some s) = Node.text s := by
  refine ⟨rfl, rfl, ?_⟩
  simp [renderNotes, renderOrEm, strTruthy, hs]

/-- C6 witness: the placeholder facts and a concrete nonempty notes string. -/
theorem C6_notes_placeholder_witness :
    renderNotes none = Node.em "–" ∧
    renderNotes (some "") = Node.em "–" ∧
    renderNotes (some "spare key") = Node.text "spare key" :=
  C6_notes_placeholder "spare key" (by decide)

/-- C8: the email selector renders one option per loaded user plus the
leading placeholder option whose value is the empty string. -/
theorem C8_option_list_length (users : List User) :
    (emailOptions users).length = users.length + 1 ∧
    (emailOptions users).head? =
      some { value := "", label := "-- Select a user --" } := by
  constructor
  · simp [emailOptions]
  · rfl

/-- C10: the confidence field uses nullish coalescing, so the score 0 is
displayed as 0 and the placeholder appears exactly when the field is null. -/
theorem C10_confidence_nullish (c : Option Int) :
    renderConfidence (some 0) = Node.text "0" ∧
    renderConfidence none = Node.em "n/a" ∧
    (∀ n : Int, renderConfidence (some n) = Node.text (toString n)) ∧
    (renderConfidence c = Node.em "n/a" ↔ c = none) := by
  refine ⟨rfl, rfl, fun n => rfl, ?_⟩
  cases c <;> simp [renderConfidence]

/-- C7: the recent-users query selects user_id, email and created_at ordered
by created_at descending with limit 10, and a failing response is only
logged: latestUsers, the error message and the loading flag keep their prior
values. -/
theorem C7_latest_users_silent_failure (s : AppState) (res : QueryResult User)
    (m : String) (herr : res.error = some m) :
    latestUsersQuery.table = "user_profiles" ∧
    latestUsersQuery.select = "user_id, email, created_at" ∧
    latestUsersQuery.orderBy = "created_at" ∧
    latestUsersQuery.ascending = false ∧
    latestUsersQuery.limit = some 10 ∧
    (fetchLatestUsers s res).latestUsers = s.latestUsers ∧
    (fetchLatestUsers s res).error = s.error ∧
    (fetchLatestUsers s res).loading = s.loading ∧
    (fetchLatestUsers s res).log =
      s.log ++ ["Failed to fetch latest users: " ++ m] := by
  refine ⟨rfl, rfl, rfl, rfl, rfl, ?_, ?_, ?_, ?_⟩ <;>
    simp [fetchLatestUsers, herr]

/-- C7 witness: a concrete failing recent-users response at baseState. -/
theorem C7_latest_users_silent_failure_witness :
    latestUsersQuery.table = "user_profiles" ∧
    latestUsersQuery.select = "user_id, email, created_at" ∧
    latestUsersQuery.orderBy = "created_at" ∧
    latestUsersQuery.ascending = false ∧
    latestUsersQuery.limit = some 10 ∧
    (fetchLatestUsers baseState ⟨none, some "timeout"⟩).latestUsers =
      baseState.latestUsers ∧
    (fetchLatestUsers baseState ⟨none, some "timeout"⟩).error =
      baseState.error ∧
    (fetchLatestUsers baseState ⟨none, some "timeout"⟩).loading =
      baseState.loading ∧
    (fetchLatestUsers baseState ⟨none, some "timeout"⟩).log =
      baseState.log ++ ["Failed to fetch latest users: " ++ "timeout"] :=
  C7_latest_users_silent_failure baseState ⟨none, some "timeout"⟩ "timeout" rfl

/-- C9: with the selection cleared (null or the empty string), fetchData
returns at the guard: no query is issued and the whole state — feedback,
items, loading flag and error included — is unchanged. -/
theorem C9_cleared_selection_frame (s : AppState)
    (fRes : QueryResult Feedback) (iRes : QueryResult StoredItem)
    (h : s.selectedEmail = none ∨ s.selectedEmail = some "") :
    fetchData s fRes iRes = { state := s, issued := [] } := by
  unfold fetchData
  rcases h with h | h <;> simp [h, strTruthy]

/-- C9 witness: a cleared state with a nonempty prior detail view is left
exactly as it was. -/
theorem C9_cleared_selection_frame_witness :
    fetchData clearedState ⟨some [], none⟩ ⟨some [], none⟩ =
      { state := clearedState, issued := [] } :=
  C9_cleared_selection_frame clearedState ⟨some [], none⟩ ⟨some [], none⟩
    (Or.inl rfl)

/-- C1: when the selection resolves to a loaded user and exactly one of the
two detail queries fails, fetchData keeps the prior feedback and items
state, sets the generic message, and logs the underlying error. -/
theorem C1_detail_error_all_or_nothing (s : AppState) (e : String) (u : User)
    (fRes : QueryResult Feedback) (iRes : QueryResult StoredItem)
    (hsel : s.selectedEmail = some e) (hne : e ≠ "")
    (hfound : s.users.find? (fun v => v.email == e) = some u)
    (herr : (∃ m, fRes.error = some m ∧ iRes.error = none) ∨
            (fRes.error = none ∧ ∃ m, iRes.error = some m)) :
    (fetchData s fRes iRes).state.feedback = s.feedback ∧
    (fetchData s fRes iRes).state.items = s.items ∧
    (fetchData s fRes iRes).state.error = some "Failed to load data" ∧
    (∃ m, (fRes.error = some m ∨ iRes.error = some m) ∧
      (fetchData s fRes iRes).state.log = s.log ++ [m]) := by
  rcases herr with ⟨m, hf, hi⟩ | ⟨hf, m, hi⟩
  · refine ⟨?_, ?_, ?_, ⟨m, Or.inl hf, ?_⟩⟩ <;>
      simp [fetchData, hsel, strTruthy_some e hne, fetchDataStart,
        fetchDataResolve, hfound, hf, hi]
  · refine ⟨?_, ?_, ?_, ⟨m, Or.inr hi, ?_⟩⟩ <;>
      simp [fetchData, hsel, strTruthy_some e hne, fetchDataStart,
        fetchDataResolve, hfound, hf, hi]

/-- C1 witness: a failing feedback query beside a succeeding items query at a
concrete state. -/
theorem C1_detail_error_all_or_nothing_witness :
    (fetchData baseState ⟨none, some "boom"⟩ ⟨some [], none⟩).state.feedback =
      baseState.feedback ∧
    (fetchData baseState ⟨none, some "boom"⟩ ⟨some [], none⟩).state.items =
      baseState.items ∧
    (fetchData baseState ⟨none, some "boom"⟩ ⟨some [], none⟩).state.error =
      some "Failed to load data" ∧
    (∃ m, ((⟨none, some "boom"⟩ : QueryResult Feedback).error = some m ∨
           (⟨some [], none⟩ : QueryResult StoredItem).error = some m) ∧
      (fetchData baseState ⟨none, some "boom"⟩ ⟨some [], none⟩).state.log =
        baseState.log ++ [m]) :=
  C1_detail_error_all_or_nothing baseState "alice@example.com" sampleUser
    ⟨none, some "boom"⟩ ⟨some [], none⟩ rfl (by decide) (by decide)
    (Or.inl ⟨"boom", rfl, rfl⟩)

/-- C2: for a non-empty selection the loading flag is true right after the
synchronous fetch start, false after every resolution outcome, false
initially, and untouched by the other handlers. -/
theorem C2_loading_flag_lifecycle (s : AppState) (e : String)
    (fRes : QueryResult Feedback) (iRes : QueryResult StoredItem)
    (hsel : s.selectedEmail = some e) (hne : e ≠ "") :
    (fetchDataStart s).loading = true ∧
    (fetchData s fRes iRes).state.loading = false ∧
    initState.loading = false ∧
    (∀ r : QueryResult User, (fetchLatestUsers s r).loading = s.loading) ∧
    (∀ r : QueryResult User, (fetchUsers s r).loading = s.loading) ∧
    (∀ em : String, (selectUser s em).loading = s.loading) := by
  refine ⟨rfl, ?_, rfl, ?_, ?_, fun em => rfl⟩
  · simp [fetchData, hsel, strTruthy_some e hne, fetchDataResolve_loading]
  · intro r; unfold fetchLatestUsers; cases r.error <;> rfl
  · intro r; unfold fetchUsers; cases r.error <;> rfl

/-- C2 witness: the loading lifecycle at a concrete selected state. -/
theorem C2_loading_flag_lifecycle_witness :
    (fetchDataStart baseState).loading = true ∧
    (fetchData baseState ⟨some [], none⟩ ⟨some [], none⟩).state.loading =
      false ∧
    initState.loading = false ∧
    (∀ r : QueryResult User,
      (fetchLatestUsers baseState r).loading = baseState.loading) ∧
    (∀ r : QueryResult User,
      (fetchUsers baseState r).loading = baseState.loading) ∧
    (∀ em : String, (selectUser baseState em).loading = baseState.loading) :=
  C2_loading_flag_lifecycle baseState "alice@example.com"
    ⟨some [], none⟩ ⟨some [], none⟩ rfl (by decide)

/-- C3: when no loaded user carries the selected non-empty email, fetchData
issues no query, keeps feedback and items at their prior values, and the
local failure is recorded by logging the thrown "User not found" error while
the generic message is shown. -/
theorem C3_user_not_found_local (s : AppState) (e : String)
    (fRes : QueryResult Feedback) (iRes : QueryResult StoredItem)
    (hsel : s.selectedEmail = some e) (hne : e ≠ "")
    (habs : ∀ u ∈ s.users, u.email ≠ e) :
    (fetchData s fRes iRes).issued = [] ∧
    (fetchData s fRes iRes).state.feedback = s.feedback ∧
    (fetchData s fRes iRes).state.items = s.items ∧
    (fetchData s fRes iRes).state.log = s.log ++ ["User not found"] ∧
    (fetchData s fRes iRes).state.error = some "Failed to load data" := by
  have hnone : s.users.find? (fun v => v.email == e) = none := by
    rw [List.find?_eq_none]
    intro u hu
    simpa using habs u hu
  refine ⟨?_, ?_, ?_, ?_, ?_⟩ <;>
    simp [fetchData, hsel, strTruthy_some e hne, fetchDataStart,
      fetchDataResolve, hnone]

/-- C3 witness: a selected email absent from the loaded list at a concrete
state. -/
theorem C3_user_not_found_local_witness :
    (fetchData missingState ⟨some [], none⟩ ⟨some [], none⟩).issued = [] ∧
    (fetchData missingState ⟨some [], none⟩ ⟨some [], none⟩).state.feedback =
      missingState.feedback ∧
    (fetchData missingState ⟨some [], none⟩ ⟨some [], none⟩).state.items =
      missingState.items ∧
    (fetchData missingState ⟨some [], none⟩ ⟨some [], none⟩).state.log =
      missingState.log ++ ["User not found"] ∧
    (fetchData missingState ⟨some [], none⟩ ⟨some [], none⟩).state.error =
      some "Failed to load data" :=
  C3_user_not_found_local missingState "bob@example.com"
    ⟨some [], none⟩ ⟨some [], none⟩ rfl (by decide) (by decide)

/-- C4: a selected email present in the loaded list resolves to one user (the
first exact case-sensitive match), and both issued detail queries filter on
equality with that same resolved user_id. -/
theorem C4_single_resolution_same_filter (s : AppState) (e : String)
    (fRes : QueryResult Feedback) (iRes : QueryResult StoredItem)
    (hsel : s.selectedEmail = some e) (hne : e ≠ "")
    (hmem : ∃ v ∈ s.users, v.email = e) :
    ∃ u : User,
      s.users.find? (fun v => v.email == e) = some u ∧ u.email = e ∧
      (fetchData s fRes iRes).issued =
        [feedbackQuery u.user_id, itemsQuery u.user_id] ∧
      (feedbackQuery u.user_id).eqFilter = some ("user_id", u.user_id) ∧
      (itemsQuery u.user_id).eqFilter = some ("user_id", u.user_id) := by
  have hs : (s.users.find? (fun v => v.email == e)).isSome = true := by
    rw [List.find?_isSome]
    obtain ⟨v, hv, he⟩ := hmem
    exact ⟨v, hv, by simp [he]⟩
  obtain ⟨u, hu⟩ := Option.isSome_iff_exists.mp hs
  have hue : u.email = e := by
    have hp := List.find?_some hu
    simpa using hp
  refine ⟨u, hu, hue, ?_, rfl, rfl⟩
  cases hf : fRes.error <;> cases hi : iRes.error <;>
    simp [fetchData, hsel, strTruthy_some e hne, fetchDataStart,
      fetchDataResolve, hu, hf, hi]

/-- C4 witness: resolution and filters at a concrete state holding the
selected user. -/
theorem C4_single_resolution_same_filter_witness :
    ∃ u : User,
      baseState.users.find? (fun v => v.email == "alice@example.com") =
        some u ∧
      u.email = "alice@example.com" ∧
      (fetchData baseState ⟨some [], none⟩ ⟨some [], none⟩).issued =
        [feedbackQuery u.user_id, itemsQuery u.user_id] ∧
      (feedbackQuery u.user_id).eqFilter = some ("user_id", u.user_id) ∧
      (itemsQuery u.user_id).eqFilter = some ("user_id", u.user_id) :=
  C4_single_resolution_same_filter baseState "alice@example.com"
    ⟨some [], none⟩ ⟨some [], none⟩ rfl (by decide)
    ⟨sampleUser, by decide, rfl⟩
